import Mathlib

/-!
Verification of the core pipeline of the AI Wellness Assistant (`app.py`):
feature mapping (`prepare_features`), risk classification (`predict_risk`),
recommendation lookup (`get_recommendations`) and the keyword-routed chat
responder (`ai_chatbot_response`).

The embedding follows the Python source line by line.  Machine floats of the
source are modelled as rationals (all arithmetic in the pipeline is exact
threshold comparison, never float-sensitive); the externally trained sklearn
classifier and scaler artifacts are modelled as abstract functions held in a
registry, exactly as `WellnessAssistant.models` / `.scalers` hold them; Python
exceptions that can escape a function are modelled with an explicit result
type, and `try/except` blocks that swallow exceptions and return `None` are
modelled with `Option`.
-/

/-- The patient-data record produced by `collect_patient_data` (app.py 298-307).
Integer sliders are `ℤ`, the derived `bmi` is exact rational, multiselects are
lists of strings and the categorical widgets are the literal strings the UI
offers. -/
structure PatientData where
  name : String
  age : ℤ
  gender : String
  height : ℤ
  weight : ℤ
  bmi : ℚ
  systolic_bp : ℤ
  diastolic_bp : ℤ
  heart_rate : ℤ
  glucose : ℤ
  cholesterol : ℤ
  family_history : List String
  current_conditions : List String
  medications : String
  exercise_freq : String
  smoking : String
  alcohol : String
  sleep_hours : ℤ
  stress_level : ℤ

/-- Python `p in s` prefix test on character lists: does `text` start with
`pat`? -/
def startsWithChars : List Char → List Char → Bool
  | [], _ => true
  | _ :: _, [] => false
  | a :: as, b :: bs => a == b && startsWithChars as bs

/-- Python's substring test `pat in text`, on character lists. -/
def containsChars (pat : List Char) : List Char → Bool
  | [] => startsWithChars pat []
  | c :: cs => startsWithChars pat (c :: cs) || containsChars pat cs

/-- `WellnessAssistant.prepare_features` (app.py 309-372).  For the three known
condition ids the Python body builds the feature list and returns it reshaped;
for any other id the local `features` is never assigned, the
`return np.array(features)` line raises `UnboundLocalError`, and the
surrounding `except Exception` swallows it and returns `None`.  Hence the
observable result is `Option (List ℚ)` with `none` exactly on the failure
path. -/
def prepare_features (patient_data : PatientData) (condition : String) :
    Option (List ℚ) :=
  if condition = "heart_disease" then
    some [
      (patient_data.age : ℚ),
      if patient_data.gender = "Male" then 1 else 0,
      1,
      (patient_data.systolic_bp : ℚ),
      (patient_data.cholesterol : ℚ),
      if patient_data.glucose > 120 then 1 else 0,
      0,
      (patient_data.heart_rate : ℚ),
      0,
      0,
      1,
      0,
      2,
      if patient_data.age < 40 then 0
        else if patient_data.age < 55 then 1
        else if patient_data.age < 70 then 2 else 3]
  else if condition = "diabetes" then
    some [
      if patient_data.gender = "Male" then 0
        else ((min 5 (max 0 ((patient_data.age - 20).fdiv 5)) : ℤ) : ℚ),
      (patient_data.glucose : ℚ),
      (patient_data.diastolic_bp : ℚ),
      20,
      85,
      patient_data.bmi,
      0.5,
      (patient_data.age : ℚ),
      if patient_data.bmi < 18.5 then 0
        else if patient_data.bmi < 25 then 1
        else if patient_data.bmi < 30 then 2 else 3,
      if patient_data.glucose < 100 then 0
        else if patient_data.glucose < 126 then 1 else 2]
  else if condition = "hypertension" then
    some [
      (patient_data.age : ℚ),
      if patient_data.gender = "Male" then 1 else 0,
      if patient_data.smoking = "Current" then 1 else 0,
      if ["Moderate", "Heavy"].contains patient_data.alcohol then 1 else 0,
      if patient_data.exercise_freq = "Daily" then 2
        else if containsChars "3-4".data patient_data.exercise_freq.data then 1 else 0,
      if patient_data.family_history.contains "Hypertension" then 1 else 0,
      if patient_data.current_conditions.contains "Diabetes" then 1 else 0,
      if patient_data.bmi > 30 then 1 else 0,
      if patient_data.stress_level > 7 then 2
        else if patient_data.stress_level > 4 then 1 else 0,
      2,
      (patient_data.sleep_hours : ℚ),
      8,
      if patient_data.age < 35 then 0
        else if patient_data.age < 50 then 1
        else if patient_data.age < 65 then 2 else 3]
  else
    none

/-- The per-condition result record built by `predict_risk` (app.py 403-408). -/
structure RiskAssessment where
  probability : ℚ
  risk_level : String
  color : String
  confidence : ℚ
deriving DecidableEq, Repr

/-- The risk-categorization branch of `predict_risk` (app.py 392-401):
probability to (risk_level, color). -/
def riskCategory (probability : ℚ) : String × String :=
  if probability < 0.3 then ("Low", "#4CAF50")
  else if probability < 0.6 then ("Moderate", "#FF9800")
  else ("High", "#F44336")

/-- The model registry part of `WellnessAssistant` state: `self.models` maps a
condition id to a loaded classifier (modelled abstractly as the positive-class
probability function `predict_proba(·)[0][1]`), `self.scalers` to an optional
fitted scaler (`transform`).  Both are external trained artifacts; the
repository never inspects them beyond calling them. -/
structure WellnessAssistant where
  models : String → Option (List ℚ → ℚ)
  scalers : String → Option (List ℚ → List ℚ)

/-- The scaling step of `predict_risk` (app.py 385-386): apply the scaler's
`transform` when one is registered for the condition, otherwise keep the raw
vector. -/
def scaledFeatures (a : WellnessAssistant) (condition : String)
    (features : List ℚ) : List ℚ :=
  match a.scalers condition with
  | some scaler => scaler features
  | none => features

/-- `WellnessAssistant.predict_risk` (app.py 374-412): `None` when no model is
registered for the condition or feature preparation returned `None`; otherwise
scale (when a scaler is registered), take the positive-class probability,
categorize, and return the assessment record. -/
def predict_risk (a : WellnessAssistant) (patient_data : PatientData)
    (condition : String) : Option RiskAssessment :=
  match a.models condition with
  | none => none
  | some model =>
    match prepare_features patient_data condition with
    | none => none
    | some features =>
      let probability := model (scaledFeatures a condition features)
      let rl := riskCategory probability
      some { probability := probability
             risk_level := rl.1
             color := rl.2
             confidence := max probability (1 - probability) }

/-- The condition list iterated by `main` (app.py 643). -/
def conditionsList : List String := ["heart_disease", "diabetes", "hypertension"]

/-- The prediction loop of `main` (app.py 644-649): each condition is scored
independently and only successful (non-`None`) assessments are inserted, in
iteration order, into the `predictions` dict (modelled as an insertion-ordered
association list). -/
def runPredictions (a : WellnessAssistant) (patient_data : PatientData) :
    List (String × RiskAssessment) :=
  conditionsList.foldl
    (fun acc condition =>
      match predict_risk a patient_data condition with
      | some pred => acc ++ [(condition, pred)]
      | none => acc)
    []

/-- A concrete default profile (the UI's default slider/select values,
app.py 253-307), used as test input. -/
def pd0 : PatientData :=
  { name := "Demo User"
    age := 45
    gender := "Male"
    height := 170
    weight := 70
    bmi := 7000 / 289
    systolic_bp := 120
    diastolic_bp := 80
    heart_rate := 72
    glucose := 100
    cholesterol := 200
    family_history := []
    current_conditions := []
    medications := ""
    exercise_freq := "Never"
    smoking := "Never"
    alcohol := "Never"
    sleep_hours := 8
    stress_level := 5 }

/-- The scenario profile of the spec (§8): age 60, Male, glucose 180, bmi 32,
systolic 160. -/
def pdScenario : PatientData :=
  { pd0 with age := 60, gender := "Male", glucose := 180, bmi := 32,
             systolic_bp := 160 }

/-- A demo registry: a constant classifier for each of the three conditions and
no scalers. -/
def demoModel : List ℚ → ℚ := fun _ => 0.5

/-- Registry with `demoModel` registered for the three known conditions. -/
def demoReg : WellnessAssistant :=
  { models := fun c => if c ∈ conditionsList then some demoModel else none
    scalers := fun _ => none }

/-- Registry with no models at all (`self.models` empty). -/
def regNone : WellnessAssistant :=
  { models := fun _ => none
    scalers := fun _ => none }

/-- One entry of the chatbot knowledge base built by `setup_chatbot`
(app.py 192-251). -/
structure CondKnowledge where
  risk_factors : List String
  prevention : List String
  symptoms : List String

/-- `self.medical_knowledge` (app.py 194-251), in dict insertion order. -/
def medical_knowledge : List (String × CondKnowledge) :=
  [("heart_disease",
    { risk_factors := [
        "Age over 55", "High blood pressure", "High cholesterol",
        "Smoking", "Diabetes", "Family history", "Obesity", "Physical inactivity"]
      prevention := [
        "Regular exercise (150 min/week moderate activity)",
        "Heart-healthy diet (Mediterranean, DASH)",
        "Maintain healthy weight (BMI 18.5-24.9)",
        "Don\x27t smoke or quit smoking",
        "Manage stress through relaxation techniques",
        "Get adequate sleep (7-9 hours)",
        "Regular health checkups"]
      symptoms := [
        "Chest pain or discomfort", "Shortness of breath",
        "Pain in arms, back, neck, jaw", "Nausea", "Cold sweat"] }),
   ("diabetes",
    { risk_factors := [
        "Age over 45", "Overweight (BMI > 25)", "Family history",
        "Physical inactivity", "High blood pressure", "Abnormal cholesterol"]
      prevention := [
        "Maintain healthy weight",
        "Be physically active (30 min most days)",
        "Eat healthy foods (whole grains, vegetables)",
        "Limit refined carbs and sugary drinks",
        "Regular health screenings"]
      symptoms := [
        "Increased thirst and urination", "Unexplained weight loss",
        "Fatigue", "Blurred vision", "Slow-healing wounds"] }),
   ("hypertension",
    { risk_factors := [
        "Age", "Family history", "Obesity", "Physical inactivity",
        "High salt diet", "Alcohol consumption", "Stress", "Smoking"]
      prevention := [
        "Maintain healthy weight",
        "Regular physical activity",
        "Limit sodium intake (<2,300mg/day)",
        "Eat potassium-rich foods",
        "Limit alcohol consumption",
        "Manage stress",
        "Don\x27t smoke"]
      symptoms := [
        "Often no symptoms (silent killer)",
        "Severe headache", "Chest pain", "Difficulty breathing",
        "Vision problems", "Blood in urine"] })]

/-- `base_recommendations['heart_disease']['High']` (app.py 445-453). -/
def heartHigh : List String := [
  "🚨 Consult a cardiologist immediately for comprehensive evaluation",
  "🥗 Adopt Mediterranean diet: fish 2x/week, olive oil, nuts, vegetables",
  "💊 Take prescribed medications exactly as directed",
  "🚶‍♂️ Start with 10-15 min daily walks, gradually increase",
  "🚭 Stop smoking completely - use nicotine replacement if needed",
  "📊 Monitor blood pressure daily at same time",
  "😴 Maintain 7-9 hours sleep with consistent schedule"]

/-- `base_recommendations['heart_disease']['Moderate']` (app.py 454-460). -/
def heartModerate : List String := [
  "👨‍⚕️ Schedule regular checkups with your doctor every 3-6 months",
  "🥗 Increase fruits and vegetables to 5-9 servings daily",
  "🏃‍♂️ Aim for 150 minutes moderate exercise weekly",
  "⚖️ Maintain healthy weight (BMI 18.5-24.9)",
  "🧘‍♀️ Practice stress management: meditation, yoga, deep breathing"]

/-- `base_recommendations['heart_disease']['Low']` (app.py 461-466). -/
def heartLow : List String := [
  "✅ Continue healthy lifestyle habits",
  "🔄 Annual health screenings and checkups",
  "💪 Maintain regular physical activity",
  "🥗 Keep eating balanced, nutritious diet"]

/-- `base_recommendations['diabetes']['High']` (app.py 469-477). -/
def diabetesHigh : List String := [
  "🚨 Consult endocrinologist for diabetes management plan",
  "🍽️ Follow plate method: 1/2 vegetables, 1/4 protein, 1/4 whole grains",
  "📊 Monitor blood glucose levels as recommended by doctor",
  "🚶‍♂️ Walk 10-15 minutes after each meal to lower glucose",
  "⚖️ Work on gradual weight loss (5-10% of body weight)",
  "👀 Schedule annual eye exams for diabetic retinopathy screening",
  "🦶 Inspect feet daily for cuts, sores, or changes"]

/-- `base_recommendations['diabetes']['Moderate']` (app.py 478-484). -/
def diabetesModerate : List String := [
  "👨‍⚕️ Regular glucose screening every 3 months",
  "🥗 Choose low glycemic index foods (oats, beans, apples)",
  "💪 Include resistance training 2x per week",
  "💧 Stay hydrated with water, avoid sugary drinks",
  "😴 Prioritize 7-8 hours quality sleep nightly"]

/-- `base_recommendations['diabetes']['Low']` (app.py 485-490). -/
def diabetesLow : List String := [
  "✅ Maintain current healthy habits",
  "🔄 Annual diabetes screening",
  "🏃‍♂️ Continue regular physical activity",
  "🥗 Keep eating balanced meals"]

/-- `base_recommendations['hypertension']['High']` (app.py 493-501). -/
def hyperHigh : List String := [
  "🚨 See doctor immediately for blood pressure management",
  "🧂 Reduce sodium to <1,500mg daily (read food labels)",
  "🍌 Eat potassium-rich foods: bananas, spinach, sweet potatoes",
  "🩺 Monitor blood pressure at home twice daily",
  "💊 Take prescribed medications at same time daily",
  "⚖️ Lose weight gradually (1-2 pounds per week)",
  "🚭 Stop smoking - each cigarette raises BP temporarily"]

/-- `base_recommendations['hypertension']['Moderate']` (app.py 502-508). -/
def hyperModerate : List String := [
  "👨‍⚕️ Regular BP monitoring and doctor visits",
  "🥗 Follow DASH diet: fruits, vegetables, low-fat dairy",
  "🏃‍♂️ 30 minutes aerobic exercise most days",
  "🍷 Limit alcohol: 1 drink/day women, 2 drinks/day men",
  "😌 Practice relaxation techniques daily"]

/-- `base_recommendations['hypertension']['Low']` (app.py 509-514). -/
def hyperLow : List String := [
  "✅ Maintain current healthy lifestyle",
  "🔄 Regular blood pressure checks",
  "💪 Continue regular exercise routine",
  "🧂 Keep sodium intake moderate"]

/-- `WellnessAssistant.get_recommendations` (app.py 441-518): the double
`dict.get(..., {}).get(..., [])` lookup over the static table; the
`patient_data` argument is accepted but never read. -/
def get_recommendations (condition risk_level : String)
    (_patient_data : PatientData) : List String :=
  if condition = "heart_disease" then
    if risk_level = "High" then heartHigh
    else if risk_level = "Moderate" then heartModerate
    else if risk_level = "Low" then heartLow
    else []
  else if condition = "diabetes" then
    if risk_level = "High" then diabetesHigh
    else if risk_level = "Moderate" then diabetesModerate
    else if risk_level = "Low" then diabetesLow
    else []
  else if condition = "hypertension" then
    if risk_level = "High" then hyperHigh
    else if risk_level = "Moderate" then hyperModerate
    else if risk_level = "Low" then hyperLow
    else []
  else []

/-- Python exceptions that can escape `ai_chatbot_response`: `ValueError` from
`max()` on an empty sequence, `TypeError` from subscripting `None`, and
`UnboundLocalError` from returning a never-assigned local. -/
inductive PyErr
  | valueError
  | typeError
  | unboundLocal
deriving DecidableEq, Repr

/-- Result of a Python call: a value, or an uncaught exception. -/
inductive PyResult (α : Type)
  | ok (val : α)
  | raise (err : PyErr)
deriving DecidableEq, Repr

/-- `question.lower()` on character lists (ASCII case folding; the routed
keywords are all ASCII). -/
def asciiLower (l : List Char) : List Char := l.map Char.toLower

/-- `any(word in question_lower for word in [...])` (app.py 525 etc.). -/
def containsAny (ql : List Char) (ws : List String) : Bool :=
  ws.any fun w => containsChars w.data ql

/-- Rule-1 keywords (app.py 525). -/
def riskKeywords : List String := ["risk", "probability", "chance"]

/-- Rule-2 keywords (app.py 538). -/
def preventionKeywords : List String := ["prevent", "reduce", "lower", "improve"]

/-- Rule-3 keywords (app.py 553). -/
def symptomKeywords : List String := ["symptom", "sign", "warning"]

/-- Rule-4 keywords (app.py 567). -/
def lifestyleKeywords : List String := ["diet", "food", "exercise", "lifestyle"]

/-- `condition.replace('_', ' ')`. -/
def underscoreToSpace (s : String) : String :=
  ⟨s.data.map fun c => if c = '_' then ' ' else c⟩

/-- Helper for `str.title()`: tracks whether the previous character was
alphabetic. -/
def titleAux : Bool → List Char → List Char
  | _, [] => []
  | prevAlpha, c :: cs =>
    (if c.isAlpha then (if prevAlpha then c.toLower else c.toUpper) else c) ::
      titleAux c.isAlpha cs

/-- Python `str.title()` (ASCII): uppercase a letter starting a word, lowercase
the rest. -/
def titleCase (s : String) : String := ⟨titleAux false s.data⟩

/-- Python `f"{p:.1%}"`: percentage with one decimal digit (rounding mode at
exact half differs from CPython's float formatting, which no claim depends
on). -/
def fmtPct (p : ℚ) : String :=
  let n : ℤ := (p * 1000 + 1 / 2).floor
  toString (n / 10) ++ "." ++ toString (n % 10) ++ "%"

/-- The key function `lambda x: x[1]['probability'] if x[1] else 0` used at
app.py 531, 540 and 571. -/
def predKey (x : String × Option RiskAssessment) : ℚ :=
  match x.2 with
  | some p => p.probability
  | none => 0

/-- The scan loop of Python's builtin `max(items, key=key)`: the running
maximum is replaced only on strict increase, so the first element of maximal
key wins. -/
def pyMaxGo {α : Type} (key : α → ℚ) : α → List α → α
  | best, [] => best
  | best, y :: ys => pyMaxGo key (if key best < key y then y else best) ys

/-- Python's builtin `max(items, key=key)`: `None` on an empty sequence (the
caller sees a `ValueError`), otherwise the first element of maximal key. -/
def pyMax {α : Type} (key : α → ℚ) : List α → Option α
  | [] => none
  | x :: xs => some (pyMaxGo key x xs)

/-- Rule 1 of `ai_chatbot_response` (app.py 525-535): list every available
assessment, then call out the maximum-probability condition. -/
def riskRule (predictions : List (String × Option RiskAssessment)) :
    PyResult String :=
  let response := predictions.foldl
    (fun acc cp =>
      match cp.2 with
      | some pred => acc ++ "🎯 **" ++ titleCase (underscoreToSpace cp.1) ++ "**: " ++
          fmtPct pred.probability ++ " (" ++ pred.risk_level ++ " risk)\n"
      | none => acc)
    "Based on your health assessment:\n\n"
  match pyMax predKey predictions with
  | none => .raise .valueError
  | some highest =>
    match highest.2 with
    | some pred => .ok (response ++ "\n⚠️ Your highest concern is **" ++
        underscoreToSpace highest.1 ++ "** at " ++ fmtPct pred.probability ++ " risk.")
    | none => .ok response

/-- `for i, tip in enumerate(prevention_tips[:5], 1)` (app.py 546-547). -/
def numberedTips : ℕ → List String → String
  | _, [] => ""
  | i, t :: ts => toString i ++ ". " ++ t ++ "\n" ++ numberedTips (i + 1) ts

/-- Rule 2 of `ai_chatbot_response` (app.py 538-550): prevention tips for the
maximum-probability condition.  When that condition is not a key of the
knowledge base the Python `return response` reads a never-assigned local
(`UnboundLocalError`). -/
def preventRule (predictions : List (String × Option RiskAssessment)) :
    PyResult String :=
  match pyMax predKey predictions with
  | none => .raise .valueError
  | some highest =>
    match medical_knowledge.lookup highest.1 with
    | some knowledge =>
      .ok ("To reduce your **" ++ underscoreToSpace highest.1 ++ "** risk:\n\n" ++
        numberedTips 1 (knowledge.prevention.take 5) ++
        "\n⚠️ **Important**: These are general guidelines. Consult your doctor for personalized medical advice.")
    | none => .raise .unboundLocal

/-- Rule 3 of `ai_chatbot_response` (app.py 553-564): symptoms of every
condition whose stored assessment is Moderate or High.  A `None` stored under
a present key would be subscripted (`TypeError`). -/
def symptomRule (predictions : List (String × Option RiskAssessment)) :
    PyResult String :=
  let folded : PyResult String := medical_knowledge.foldl
    (fun acc ck =>
      match acc with
      | .raise e => .raise e
      | .ok s =>
        match predictions.lookup ck.1 with
        | none => .ok s
        | some none => .raise .typeError
        | some (some pred) =>
          if pred.risk_level = "Moderate" ∨ pred.risk_level = "High" then
            .ok (s ++ "**" ++ titleCase (underscoreToSpace ck.1) ++ "** symptoms:\n" ++
              ck.2.symptoms.foldl (fun a sym => a ++ "• " ++ sym ++ "\n") "" ++ "\n")
          else .ok s)
    (.ok "🚨 **Warning Signs to Watch For:**\n\n")
  match folded with
  | .raise e => .raise e
  | .ok s => .ok (s ++ "🚨 **EMERGENCY**: Call 911 if you experience chest pain, difficulty breathing, or severe symptoms!")

/-- Rule 4 of `ai_chatbot_response` (app.py 567-580): up to 6 recommendation
strings for the maximum-probability condition when its tier is Moderate or
High, otherwise only the header and closing disclaimer. -/
def lifestyleRule (patient_data : PatientData)
    (predictions : List (String × Option RiskAssessment)) : PyResult String :=
  let response := "🏃‍♂️ **Lifestyle Recommendations Based on Your Risk:**\n\n"
  match pyMax predKey predictions with
  | none => .raise .valueError
  | some highest =>
    let response :=
      match highest.2 with
      | some pred =>
        if pred.risk_level = "Moderate" ∨ pred.risk_level = "High" then
          ((get_recommendations highest.1 pred.risk_level patient_data).take 6).foldl
            (fun a r => a ++ "• " ++ r ++ "\n") response
        else response
      | none => response
    .ok (response ++ "\n💡 **Remember**: Start gradually and consult healthcare providers before major changes.")

/-- The default (rule 5) capability message (app.py 584-594). -/
def defaultResponse : String :=
  "🤖 **I\x27m your AI Health Assistant!** I can help you understand:\n\n• 📊 Your health risk assessments and what they mean\n• 💡 Lifestyle changes to improve your health\n• ⚠️ Warning signs and symptoms to watch for\n• 🥗 Diet and exercise recommendations\n• 🏥 When to seek medical care\n\n**Important**: I provide educational information only. I cannot prescribe medications or replace professional medical advice. Always consult healthcare providers for medical decisions.\n\nTry asking: \"What can I do to reduce my risk?\" or \"What symptoms should I watch for?\" "

/-- `WellnessAssistant.ai_chatbot_response` (app.py 520-594): lowercase the
question once, then run the five keyword rules in order, first match wins. -/
def ai_chatbot_response (question : String) (patient_data : PatientData)
    (predictions : List (String × Option RiskAssessment)) : PyResult String :=
  let question_lower := asciiLower question.data
  if containsAny question_lower riskKeywords then riskRule predictions
  else if containsAny question_lower preventionKeywords then preventRule predictions
  else if containsAny question_lower symptomKeywords then symptomRule predictions
  else if containsAny question_lower lifestyleKeywords then
    lifestyleRule patient_data predictions
  else .ok defaultResponse

/-- C4: for every valid profile the feature mapper returns a vector of length
exactly 14 for heart_disease, 10 for diabetes and 13 for hypertension. -/
theorem c4_feature_arity (pd : PatientData) :
    (prepare_features pd "heart_disease").map List.length = some 14 ∧
    (prepare_features pd "diabetes").map List.length = some 10 ∧
    (prepare_features pd "hypertension").map List.length = some 13 :=
  ⟨rfl, rfl, rfl⟩

/-- C7: on the scenario profile (age 60, Male, glucose 180, bmi 32,
systolic 160) the diabetes vector has glucose-bucket 2 (index 9) and
bmi-bucket 3 (index 8), and the hypertension vector has obesity flag 1
(index 7); in general the buckets follow the documented thresholds. -/
theorem c7_bucket_features :
    (((prepare_features pdScenario "diabetes").getD []).getD 9 0 = 2 ∧
     ((prepare_features pdScenario "diabetes").getD []).getD 8 0 = 3 ∧
     ((prepare_features pdScenario "hypertension").getD []).getD 7 0 = 1) ∧
    (∀ pd : PatientData,
      ((prepare_features pd "diabetes").getD []).getD 9 0 =
        (if pd.glucose < 100 then 0 else if pd.glucose < 126 then 1 else 2) ∧
      ((prepare_features pd "diabetes").getD []).getD 8 0 =
        (if pd.bmi < 18.5 then 0 else if pd.bmi < 25 then 1
         else if pd.bmi < 30 then 2 else 3) ∧
      ((prepare_features pd "hypertension").getD []).getD 7 0 =
        (if pd.bmi > 30 then 1 else 0)) := by
  have hgen : ∀ pd : PatientData,
      ((prepare_features pd "diabetes").getD []).getD 9 0 =
        (if pd.glucose < 100 then 0 else if pd.glucose < 126 then 1 else 2) ∧
      ((prepare_features pd "diabetes").getD []).getD 8 0 =
        (if pd.bmi < 18.5 then 0 else if pd.bmi < 25 then 1
         else if pd.bmi < 30 then 2 else 3) ∧
      ((prepare_features pd "hypertension").getD []).getD 7 0 =
        (if pd.bmi > 30 then 1 else 0) := fun pd => ⟨rfl, rfl, rfl⟩
  refine ⟨⟨?_, ?_, ?_⟩, hgen⟩
  · rw [(hgen pdScenario).1]; norm_num [pdScenario, pd0]
  · rw [(hgen pdScenario).2.1]; norm_num [pdScenario, pd0]
  · rw [(hgen pdScenario).2.2]; norm_num [pdScenario, pd0]

/-- C9: the feature mapper is deterministic — mapping equal profiles for the
same condition yields identical vectors (the source reads only the profile
fields and literal constants; no randomness or ambient state). -/
theorem c9_mapper_deterministic (pd1 pd2 : PatientData) (c : String)
    (h : pd1 = pd2) : prepare_features pd1 c = prepare_features pd2 c := by
  rw [h]

theorem c9_mapper_deterministic_w :
    prepare_features pdScenario "diabetes" = prepare_features pdScenario "diabetes" :=
  c9_mapper_deterministic pdScenario pdScenario "diabetes" rfl

/-- C1 (divergence evidence): with an EMPTY assessments map, a question
matching rule 1 ("risk"), rule 2 ("prevent") or rule 4 ("diet") makes the
chat responder hit `max(predictions.items(), ...)` on an empty sequence and
raise `ValueError` instead of returning a fallback string; only the rule-3
and default paths return a string. -/
theorem c1_empty_assessments_raise :
    ai_chatbot_response "What is my risk?" pd0 [] = .raise .valueError ∧
    ai_chatbot_response "How can I prevent it?" pd0 [] = .raise .valueError ∧
    ai_chatbot_response "What diet should I follow?" pd0 [] = .raise .valueError ∧
    ai_chatbot_response "What symptoms should I watch for?" pd0 [] =
      .ok ("🚨 **Warning Signs to Watch For:**\n\n" ++
        "🚨 **EMERGENCY**: Call 911 if you experience chest pain, difficulty breathing, or severe symptoms!") ∧
    ai_chatbot_response "hello" pd0 [] = .ok defaultResponse := by
  refine ⟨?_, ?_, ?_, ?_, ?_⟩ <;> rfl

/-- C2 counterexample: at the concrete unknown condition id "cancer" the
feature mapper does NOT fail with a distinguished fatal error — the internal
`UnboundLocalError` is caught by the blanket `except` and the observable
result is the plain `None` failure sentinel, the same value as a feature
mapping failure, and `predict_risk` silently skips the condition
(`NotAvailable`) exactly as for a missing model. -/
theorem c2_counterexample :
    prepare_features pd0 "cancer" = none ∧
    predict_risk demoReg pd0 "cancer" = none :=
  ⟨rfl, rfl⟩

/-- C2 (amended): for every profile and every condition id outside the three
known ids, `prepare_features` returns `none` — never a feature vector but
also never a distinguished fatal error — and `predict_risk` then returns
`none` (skip), indistinguishable from the mapping-failure/no-model paths. -/
theorem c2_unknown_condition_nonfatal
    (a : WellnessAssistant) (pd : PatientData) (c : String)
    (h1 : c ≠ "heart_disease") (h2 : c ≠ "diabetes") (h3 : c ≠ "hypertension") :
    prepare_features pd c = none ∧ predict_risk a pd c = none := by
  have hpf : prepare_features pd c = none := by
    unfold prepare_features
    rw [if_neg h1, if_neg h2, if_neg h3]
  refine ⟨hpf, ?_⟩
  unfold predict_risk
  rcases hA : a.models c with _ | m
  · rfl
  · rw [hpf]

theorem c2_unknown_condition_nonfatal_w :
    prepare_features pd0 "stroke" = none ∧ predict_risk regNone pd0 "stroke" = none :=
  c2_unknown_condition_nonfatal regNone pd0 "stroke" (by decide) (by decide) (by decide)

/-- C8: `get_recommendations` is a pure lookup — it never reads the profile
(identical output for any two profiles), returns the empty list whenever the
condition or the risk level is unrecognized, and each of the nine known
(condition, tier) pairs yields between 4 and 7 advice strings. -/
theorem c8_recommendations_lookup :
    (∀ (c r : String) (pd1 pd2 : PatientData),
      get_recommendations c r pd1 = get_recommendations c r pd2) ∧
    (∀ (c r : String) (pd : PatientData),
      (¬(c = "heart_disease" ∨ c = "diabetes" ∨ c = "hypertension") ∨
       ¬(r = "Low" ∨ r = "Moderate" ∨ r = "High")) →
      get_recommendations c r pd = []) ∧
    (∀ (c r : String) (pd : PatientData),
      (c = "heart_disease" ∨ c = "diabetes" ∨ c = "hypertension") →
      (r = "Low" ∨ r = "Moderate" ∨ r = "High") →
      4 ≤ (get_recommendations c r pd).length ∧
      (get_recommendations c r pd).length ≤ 7) := by
  refine ⟨fun c r pd1 pd2 => rfl, ?_, ?_⟩
  · intro c r pd h
    unfold get_recommendations
    rcases h with h | h <;> push_neg at h <;> obtain ⟨x1, x2, x3⟩ := h <;>
      split_ifs <;> simp_all
  · intro c r pd hc hr
    rcases hc with rfl | rfl | rfl <;> rcases hr with rfl | rfl | rfl
    · exact (by decide : 4 ≤ heartLow.length ∧ heartLow.length ≤ 7)
    · exact (by decide : 4 ≤ heartModerate.length ∧ heartModerate.length ≤ 7)
    · exact (by decide : 4 ≤ heartHigh.length ∧ heartHigh.length ≤ 7)
    · exact (by decide : 4 ≤ diabetesLow.length ∧ diabetesLow.length ≤ 7)
    · exact (by decide : 4 ≤ diabetesModerate.length ∧ diabetesModerate.length ≤ 7)
    · exact (by decide : 4 ≤ diabetesHigh.length ∧ diabetesHigh.length ≤ 7)
    · exact (by decide : 4 ≤ hyperLow.length ∧ hyperLow.length ≤ 7)
    · exact (by decide : 4 ≤ hyperModerate.length ∧ hyperModerate.length ≤ 7)
    · exact (by decide : 4 ≤ hyperHigh.length ∧ hyperHigh.length ≤ 7)

theorem c8_recommendations_lookup_w :
    get_recommendations "cancer" "Low" pd0 = [] ∧
    (4 ≤ (get_recommendations "heart_disease" "High" pd0).length ∧
     (get_recommendations "heart_disease" "High" pd0).length ≤ 7) :=
  ⟨c8_recommendations_lookup.2.1 "cancer" "Low" pd0 (Or.inl (by decide)),
   c8_recommendations_lookup.2.2 "heart_disease" "High" pd0 (Or.inl rfl) (Or.inr (Or.inr rfl))⟩

/-- Helper: the success case of `predict_risk`, spelled out. -/
theorem predict_risk_some (a : WellnessAssistant) (pd : PatientData) (c : String)
    (m : List ℚ → ℚ) (feats : List ℚ)
    (hm : a.models c = some m) (hpf : prepare_features pd c = some feats) :
    predict_risk a pd c =
      some { probability := m (scaledFeatures a c feats)
             risk_level := (riskCategory (m (scaledFeatures a c feats))).1
             color := (riskCategory (m (scaledFeatures a c feats))).2
             confidence := max (m (scaledFeatures a c feats))
               (1 - m (scaledFeatures a c feats)) } := by
  unfold predict_risk
  rw [hm, hpf]

/-- Helper: exact description of the tier and color chosen by `riskCategory`. -/
theorem riskCategory_cases (p : ℚ) :
    ((riskCategory p).1 = "Low" ↔ p < 0.3) ∧
    ((riskCategory p).1 = "Moderate" ↔ 0.3 ≤ p ∧ p < 0.6) ∧
    ((riskCategory p).1 = "High" ↔ 0.6 ≤ p) ∧
    ((riskCategory p).1 = "Low" → (riskCategory p).2 = "#4CAF50") ∧
    ((riskCategory p).1 = "Moderate" → (riskCategory p).2 = "#FF9800") ∧
    ((riskCategory p).1 = "High" → (riskCategory p).2 = "#F44336") := by
  have hLM : ("Low" : String) ≠ "Moderate" := by decide
  have hLH : ("Low" : String) ≠ "High" := by decide
  have hML : ("Moderate" : String) ≠ "Low" := by decide
  have hMH : ("Moderate" : String) ≠ "High" := by decide
  have hHL : ("High" : String) ≠ "Low" := by decide
  have hHM : ("High" : String) ≠ "Moderate" := by decide
  have h36 : (0.3 : ℚ) ≤ 0.6 := by norm_num
  unfold riskCategory
  split_ifs with h1 h2
  · exact ⟨⟨fun _ => h1, fun _ => rfl⟩,
      ⟨fun h => absurd h hLM, fun h => absurd h1 (not_lt.2 h.1)⟩,
      ⟨fun h => absurd h hLH, fun h => absurd h1 (not_lt.2 (le_trans h36 h))⟩,
      fun _ => rfl, fun h => absurd h hLM, fun h => absurd h hLH⟩
  · exact ⟨⟨fun h => absurd h hML, fun h => absurd h h1⟩,
      ⟨fun _ => ⟨not_lt.1 h1, h2⟩, fun _ => rfl⟩,
      ⟨fun h => absurd h hMH, fun h => absurd h2 (not_lt.2 h)⟩,
      fun h => absurd h hML, fun _ => rfl, fun h => absurd h hMH⟩
  · exact ⟨⟨fun h => absurd h hHL, fun h => absurd h h1⟩,
      ⟨fun h => absurd h hHM, fun h => absurd h.2 h2⟩,
      ⟨fun _ => not_lt.1 h2, fun _ => rfl⟩,
      fun h => absurd h hHL, fun h => absurd h hHM, fun _ => rfl⟩

/-- Result of the demo classifier on any vector. -/
def demoR : RiskAssessment :=
  { probability := 0.5
    risk_level := (riskCategory 0.5).1
    color := (riskCategory 0.5).2
    confidence := max 0.5 (1 - 0.5) }

/-- C3: whenever `predict_risk` succeeds against a classifier whose outputs
are genuine probabilities (sklearn's `predict_proba` guarantee), the returned
probability is in [0,1]; the tier is Low iff p < 0.30, Moderate iff
0.30 ≤ p < 0.60, High iff p ≥ 0.60; each tier carries its fixed color; and
confidence = max(p, 1-p).  The boundary samples of the spec are checked on
the categorizer directly. -/
theorem c3_risk_classification :
    (∀ (a : WellnessAssistant) (pd : PatientData) (c : String)
       (m : List ℚ → ℚ) (r : RiskAssessment),
      a.models c = some m →
      (∀ v, 0 ≤ m v ∧ m v ≤ 1) →
      predict_risk a pd c = some r →
      (0 ≤ r.probability ∧ r.probability ≤ 1) ∧
      (r.risk_level = "Low" ↔ r.probability < 0.3) ∧
      (r.risk_level = "Moderate" ↔ 0.3 ≤ r.probability ∧ r.probability < 0.6) ∧
      (r.risk_level = "High" ↔ 0.6 ≤ r.probability) ∧
      (r.risk_level = "Low" → r.color = "#4CAF50") ∧
      (r.risk_level = "Moderate" → r.color = "#FF9800") ∧
      (r.risk_level = "High" → r.color = "#F44336") ∧
      r.confidence = max r.probability (1 - r.probability)) ∧
    (riskCategory (2999/10000)).1 = "Low" ∧
    (riskCategory (3/10)).1 = "Moderate" ∧
    (riskCategory (5999/10000)).1 = "Moderate" ∧
    (riskCategory (6/10)).1 = "High" := by
  constructor
  · intro a pd c m r hm hb hr
    cases hpf : prepare_features pd c with
    | none =>
      unfold predict_risk at hr
      rw [hm, hpf] at hr
      exact absurd hr (by simp)
    | some feats =>
      rw [predict_risk_some a pd c m feats hm hpf] at hr
      have hr' := Option.some.inj hr
      subst hr'
      have hc := riskCategory_cases (m (scaledFeatures a c feats))
      exact ⟨hb _, hc.1, hc.2.1, hc.2.2.1, hc.2.2.2.1, hc.2.2.2.2.1,
        hc.2.2.2.2.2, rfl⟩
  · refine ⟨?_, ?_, ?_, ?_⟩ <;> norm_num [riskCategory]

theorem c3_risk_classification_w :
    (0 ≤ demoR.probability ∧ demoR.probability ≤ 1) ∧
    (demoR.risk_level = "Moderate" ↔ 0.3 ≤ demoR.probability ∧ demoR.probability < 0.6) ∧
    demoR.confidence = max demoR.probability (1 - demoR.probability) := by
  have h := c3_risk_classification.1 demoReg pd0 "heart_disease" demoModel demoR
    rfl (fun v => by constructor <;> norm_num [demoModel]) rfl
  exact ⟨h.1, h.2.2.1, h.2.2.2.2.2.2.2⟩

/-- C6: `predict_risk` returns `none` (NotAvailable) — not an exception — when
no classifier is registered for the condition or when feature mapping fails;
and in the per-condition loop of `main` each condition's entry in the
predictions map depends only on its own `predict_risk` result, so one
condition's failure never disturbs the others. -/
theorem c6_not_available_isolated :
    (∀ (a : WellnessAssistant) (pd : PatientData) (c : String),
      a.models c = none → predict_risk a pd c = none) ∧
    (∀ (a : WellnessAssistant) (pd : PatientData) (c : String),
      prepare_features pd c = none → predict_risk a pd c = none) ∧
    (∀ (a : WellnessAssistant) (pd : PatientData) (c : String),
      c ∈ conditionsList →
      (runPredictions a pd).lookup c = predict_risk a pd c) := by
  refine ⟨?_, ?_, ?_⟩
  · intro a pd c h
    unfold predict_risk
    rw [h]
  · intro a pd c h
    unfold predict_risk
    rcases hA : a.models c with _ | m
    · rfl
    · rw [h]
  · intro a pd c hc
    have hc' : c = "heart_disease" ∨ c = "diabetes" ∨ c = "hypertension" := by
      simpa [conditionsList] using hc
    rcases hc' with rfl | rfl | rfl <;>
      rcases h1 : predict_risk a pd "heart_disease" with _ | p1 <;>
      rcases h2 : predict_risk a pd "diabetes" with _ | p2 <;>
      rcases h3 : predict_risk a pd "hypertension" with _ | p3 <;>
      simp [runPredictions, conditionsList, h1, h2, h3, List.lookup]

theorem c6_not_available_isolated_w :
    predict_risk regNone pd0 "heart_disease" = none ∧
    predict_risk demoReg pd0 "cancer" = none ∧
    (runPredictions regNone pd0).lookup "heart_disease" =
      predict_risk regNone pd0 "heart_disease" :=
  ⟨c6_not_available_isolated.1 regNone pd0 "heart_disease" rfl,
   c6_not_available_isolated.2.1 demoReg pd0 "cancer" rfl,
   c6_not_available_isolated.2.2 regNone pd0 "heart_disease" (by decide)⟩

/-- Helper: Python's `max` scan returns the FIRST element attaining the
maximum key — every element strictly before the result has a strictly smaller
key, every element after it a key that is at most equal. -/
theorem pyMaxGo_first {α : Type} (key : α → ℚ) (l : List α) : ∀ b : α,
    ∃ l₁ l₂,
      b :: l = l₁ ++ pyMaxGo key b l :: l₂ ∧
      (∀ y ∈ l₁, key y < key (pyMaxGo key b l)) ∧
      (∀ y ∈ l₂, key y ≤ key (pyMaxGo key b l)) := by
  induction l with
  | nil =>
    intro b
    exact ⟨[], [], rfl, by simp, by simp⟩
  | cons y ys ih =>
    intro b
    by_cases hk : key b < key y
    · obtain ⟨l₁, l₂, heq, hlt, hle⟩ := ih y
      have hred : pyMaxGo key b (y :: ys) = pyMaxGo key y ys := by
        simp [pyMaxGo, if_pos hk]
      rw [hred]
      have hyr : key y ≤ key (pyMaxGo key y ys) := by
        rcases l₁ with _ | ⟨z, l₁'⟩
        · simp only [List.nil_append] at heq
          injection heq with hy _
          rw [← hy]
        · rw [List.cons_append] at heq
          injection heq with hz _
          exact le_of_lt (hlt y (hz ▸ List.mem_cons_self z l₁'))
      refine ⟨b :: l₁, l₂, ?_, ?_, hle⟩
      · rw [List.cons_append, ← heq]
      · intro w hw
        rcases List.mem_cons.mp hw with rfl | hw'
        · exact lt_of_lt_of_le hk hyr
        · exact hlt w hw'
    · obtain ⟨l₁, l₂, heq, hlt, hle⟩ := ih b
      have hred : pyMaxGo key b (y :: ys) = pyMaxGo key b ys := by
        simp [pyMaxGo, if_neg hk]
      rw [hred]
      have hyb : key y ≤ key b := not_lt.mp hk
      rcases l₁ with _ | ⟨z, l₁'⟩
      · simp only [List.nil_append] at heq
        injection heq with hb hl2
        refine ⟨[], y :: l₂, ?_, by simp, ?_⟩
        · simp only [List.nil_append]
          rw [← hb, ← hl2]
        · intro w hw
          rcases List.mem_cons.mp hw with rfl | hw'
          · rw [← hb]; exact hyb
          · exact hle w hw'
      · rw [List.cons_append] at heq
        injection heq with hz hys
        have hbr : key b < key (pyMaxGo key b ys) :=
          hlt b (hz ▸ List.mem_cons_self z l₁')
        refine ⟨b :: y :: l₁', l₂, ?_, ?_, hle⟩
        · rw [List.cons_append, List.cons_append, ← hys]
        · intro w hw
          rcases List.mem_cons.mp hw with rfl | hw'
          · exact hbr
          · rcases List.mem_cons.mp hw' with rfl | hw''
            · exact lt_of_le_of_lt hyb hbr
            · exact hlt w (List.mem_cons_of_mem z hw'')

/-- C5: the five keyword rules run on the lowercased question in fixed
precedence order with first match wins (so a question containing both a
rule-1 and a later-rule keyword is answered by rule 1); matching is
case-insensitive (the response depends on the question only through its
lowercased text); and the max-probability lookup picks the FIRST entry in
iteration order among ties. -/
theorem c5_keyword_precedence :
    (∀ (q : String) (pd : PatientData)
       (preds : List (String × Option RiskAssessment)),
      containsAny (asciiLower q.data) riskKeywords = true →
      ai_chatbot_response q pd preds = riskRule preds) ∧
    (∀ (q : String) (pd : PatientData)
       (preds : List (String × Option RiskAssessment)),
      containsAny (asciiLower q.data) riskKeywords = false →
      containsAny (asciiLower q.data) preventionKeywords = true →
      ai_chatbot_response q pd preds = preventRule preds) ∧
    (∀ (q : String) (pd : PatientData)
       (preds : List (String × Option RiskAssessment)),
      containsAny (asciiLower q.data) riskKeywords = false →
      containsAny (asciiLower q.data) preventionKeywords = false →
      containsAny (asciiLower q.data) symptomKeywords = true →
      ai_chatbot_response q pd preds = symptomRule preds) ∧
    (∀ (q : String) (pd : PatientData)
       (preds : List (String × Option RiskAssessment)),
      containsAny (asciiLower q.data) riskKeywords = false →
      containsAny (asciiLower q.data) preventionKeywords = false →
      containsAny (asciiLower q.data) symptomKeywords = false →
      containsAny (asciiLower q.data) lifestyleKeywords = true →
      ai_chatbot_response q pd preds = lifestyleRule pd preds) ∧
    (∀ (q : String) (pd : PatientData)
       (preds : List (String × Option RiskAssessment)),
      containsAny (asciiLower q.data) riskKeywords = false →
      containsAny (asciiLower q.data) preventionKeywords = false →
      containsAny (asciiLower q.data) symptomKeywords = false →
      containsAny (asciiLower q.data) lifestyleKeywords = false →
      ai_chatbot_response q pd preds = .ok defaultResponse) ∧
    (∀ (q1 q2 : String) (pd : PatientData)
       (preds : List (String × Option RiskAssessment)),
      asciiLower q1.data = asciiLower q2.data →
      ai_chatbot_response q1 pd preds = ai_chatbot_response q2 pd preds) ∧
    (∀ (preds : List (String × Option RiskAssessment))
       (x : String × Option RiskAssessment),
      pyMax predKey preds = some x →
      ∃ l₁ l₂, preds = l₁ ++ x :: l₂ ∧
        (∀ y ∈ l₁, predKey y < predKey x) ∧
        (∀ y ∈ l₂, predKey y ≤ predKey x)) := by
  refine ⟨?_, ?_, ?_, ?_, ?_, ?_, ?_⟩
  · intro q pd preds h1
    simp [ai_chatbot_response, h1]
  · intro q pd preds h1 h2
    simp [ai_chatbot_response, h1, h2]
  · intro q pd preds h1 h2 h3
    simp [ai_chatbot_response, h1, h2, h3]
  · intro q pd preds h1 h2 h3 h4
    simp [ai_chatbot_response, h1, h2, h3, h4]
  · intro q pd preds h1 h2 h3 h4
    simp [ai_chatbot_response, h1, h2, h3, h4]
  · intro q1 q2 pd preds h
    unfold ai_chatbot_response
    rw [h]
  · intro preds x hx
    cases preds with
    | nil => exact absurd hx (by simp [pyMax])
    | cons p ps =>
      have hx' : pyMaxGo predKey p ps = x := by
        unfold pyMax at hx
        exact Option.some.inj hx
      obtain ⟨l₁, l₂, heq, hlt, hle⟩ := pyMaxGo_first predKey ps p
      rw [hx'] at heq hlt hle
      exact ⟨l₁, l₂, heq, hlt, hle⟩

/-- Assessments map used as witness input: a single entry. -/
def preds5 : List (String × Option RiskAssessment) := [("heart_disease", some demoR)]

theorem c5_keyword_precedence_w :
    ai_chatbot_response "what is my risk and how can I prevent it" pd0 preds5 =
      riskRule preds5 :=
  c5_keyword_precedence.1 "what is my risk and how can I prevent it" pd0 preds5
    (by decide)

/-- C10: when the assessments map is non-empty, its maximum-probability entry
holds an assessment whose tier is "Low", and the question matches rule 4
(diet/food/exercise/lifestyle) and none of rules 1-3, the responder returns
exactly the lifestyle header followed by the "start gradually" disclaimer —
zero recommendation strings in between, and no error. -/
theorem c10_low_tier_lifestyle
    (q : String) (pd : PatientData)
    (preds : List (String × Option RiskAssessment)) (c : String)
    (p : RiskAssessment)
    (h1 : containsAny (asciiLower q.data) riskKeywords = false)
    (h2 : containsAny (asciiLower q.data) preventionKeywords = false)
    (h3 : containsAny (asciiLower q.data) symptomKeywords = false)
    (h4 : containsAny (asciiLower q.data) lifestyleKeywords = true)
    (hmax : pyMax predKey preds = some (c, some p))
    (hlow : p.risk_level = "Low") :
    ai_chatbot_response q pd preds =
      .ok ("🏃‍♂️ **Lifestyle Recommendations Based on Your Risk:**\n\n" ++
        "\n💡 **Remember**: Start gradually and consult healthcare providers before major changes.") := by
  have hdispatch : ai_chatbot_response q pd preds = lifestyleRule pd preds := by
    simp [ai_chatbot_response, h1, h2, h3, h4]
  rw [hdispatch]
  unfold lifestyleRule
  rw [hmax]
  have hno : ¬(p.risk_level = "Moderate" ∨ p.risk_level = "High") := by
    rw [hlow]; decide
  simp only [hno, if_false, ite_false]

/-- A concrete Low-tier assessment. -/
def lowR : RiskAssessment :=
  { probability := 0.1, risk_level := "Low", color := "#4CAF50", confidence := 0.9 }

/-- Assessments map whose only (hence max-probability) entry is Low tier. -/
def predsLow : List (String × Option RiskAssessment) := [("heart_disease", some lowR)]

theorem c10_low_tier_lifestyle_w :
    ai_chatbot_response "What should my diet be?" pd0 predsLow =
      .ok ("🏃‍♂️ **Lifestyle Recommendations Based on Your Risk:**\n\n" ++
        "\n💡 **Remember**: Start gradually and consult healthcare providers before major changes.") :=
  c10_low_tier_lifestyle "What should my diet be?" pd0 predsLow "heart_disease" lowR
    (by decide) (by decide) (by decide) (by decide) rfl rfl
